import Mathlib

/-!
Verification development for the `verifier_bench` binary
(`examples/verifier_bench/src/bin/main.rs`): a Groth16 benchmark harness with
a synthetic parameter builder (`dummy_params` / `dummy_vk`), a bounded random
point generator (`random_points`), a demonstration circuit (`DummyDemo`), and
a fixed-layout proof byte-blob decoder in `main`.

Modelling conventions.
* Curve points of the two groups are opaque values drawn from an abstract
  randomness source.  A randomness source for a group is a stream
  `Nat → α`; the RNG state is the index of the next draw, and every single
  call to `random` on the source yields the stream value at the current
  index and advances the index by one.  This models Rust's `C::random(rng)`
  on a stateful `rng` faithfully: the sequence of drawn values is exactly
  `src st, src (st+1), …` in evaluation order.
* The scalar field `Fr` of BLS12-381 is modelled as `ZMod frModulus`.
* Rust panics (assertion failures, out-of-range slicing, `.unwrap()` on
  `Err`/`None`) are modelled as distinguished outcomes (`Option.none` or an
  explicit outcome constructor), recoverable `Result` errors as `Except`.
-/

namespace VerifierBench

/-- One call to `C::random(rng)`: yield the stream value at the current state
and advance the state by one. -/
def draw (src : Nat → α) (st : Nat) : α × Nat := (src st, st + 1)

/-- `DISTINT_POINTS` constant from `random_points` (sic, the source spells it
without the `c`): the size of the pool of random points. -/
def DISTINT_POINTS : Nat := 100

/-- Sequentially draw `n` points from the source, threading the RNG state:
models `(0..n).map(|_| C::random(rng).into_affine()).collect::<Vec<_>>()`. -/
def drawMany (src : Nat → α) : Nat → Nat → List α × Nat
  | 0, st => ([], st)
  | n + 1, st =>
    let (p, st1) := draw src st
    let (ps, st2) := drawMany src n st1
    (p :: ps, st2)

/-- Models `pool.into_iter().cycle().take(count).collect()`: the element at
position `i` of the result is the pool entry at index `i mod pool.length`.
The default value is irrelevant because the pool is never empty where this is
used. -/
def cycleTake (pool : List α) (count : Nat) (dflt : α) : List α :=
  (List.range count).map (fun i => pool.getD (i % pool.length) dflt)

/-- `random_points::<C, _>(count, rng)` from the source: build a pool of
`DISTINT_POINTS` random points (the `collect::<Vec<_>>()` forces all 100
draws), then cycle through the pool taking `count` elements.  Returns the
produced points together with the advanced RNG state. -/
def random_points (src : Nat → α) (count : Nat) (st : Nat) : List α × Nat :=
  let pool := drawMany src DISTINT_POINTS st
  (cycleTake pool.1 count (src st), pool.2)

/-- The `VerifyingKey` shape from `crusty3_zk::groth16`, as used by
`dummy_vk`. -/
structure VerifyingKey (G1 G2 : Type) where
  alpha_g1 : G1
  beta_g1 : G1
  beta_g2 : G2
  gamma_g2 : G2
  delta_g1 : G1
  delta_g2 : G2
  ic : List G1
deriving DecidableEq

/-- The `Parameters` shape from `crusty3_zk::groth16`, as used by
`dummy_params` (the `Arc` wrappers around the vectors carry no semantic
content and are dropped). -/
structure Parameters (G1 G2 : Type) where
  vk : VerifyingKey G1 G2
  h : List G1
  l : List G1
  a : List G1
  b_g1 : List G1
  b_g2 : List G2
deriving DecidableEq

/-- `dummy_vk::<E, R>(public, rng)` from the source.  Struct literal fields
are evaluated in the written order: six direct single draws (`alpha_g1`,
`beta_g1` from G1; `beta_g2`, `gamma_g2` from G2; `delta_g1` from G1;
`delta_g2` from G2), then `ic = random_points::<E::G1, _>(public + 1, rng)`.
The two group sources share one RNG state, as in Rust where both
`E::G1::random` and `E::G2::random` consume the same `rng`. -/
def dummy_vk (g1 : Nat → G1) (g2 : Nat → G2) (public : Nat) (st : Nat) :
    VerifyingKey G1 G2 × Nat :=
  let alpha_g1 := draw g1 st
  let beta_g1 := draw g1 alpha_g1.2
  let beta_g2 := draw g2 beta_g1.2
  let gamma_g2 := draw g2 beta_g2.2
  let delta_g1 := draw g1 gamma_g2.2
  let delta_g2 := draw g2 delta_g1.2
  let ic := random_points g1 (public + 1) delta_g2.2
  (⟨alpha_g1.1, beta_g1.1, beta_g2.1, gamma_g2.1, delta_g1.1, delta_g2.1,
    ic.1⟩, ic.2)

/-- The `hlen` computation in `dummy_params`:
`(1 << (((count + public + 1) as f64).log2().ceil() as usize)) - 1`.
The `f64` expression `log2().ceil()` is modelled by the exact ceiling
base-2 logarithm `Nat.clog 2`; the two agree on every argument small enough
for a vector of that length to be allocatable. -/
def hlen (public priv : Nat) : Nat :=
  2 ^ Nat.clog 2 ((public + priv) + public + 1) - 1

/-- `dummy_params::<E, R>(public, private, rng)` from the source.  Computes
`count = public + private` and `hlen`, then fills the struct fields in the
written order: `vk` via `dummy_vk`, then `h`, `l`, `a`, `b_g1` from G1 and
`b_g2` from G2, each via one `random_points` call on the shared RNG. -/
def dummy_params (g1 : Nat → G1) (g2 : Nat → G2) (public priv : Nat)
    (st : Nat) : Parameters G1 G2 × Nat :=
  let count := public + priv
  let hl := hlen public priv
  let vk := dummy_vk g1 g2 public st
  let h := random_points g1 hl vk.2
  let l := random_points g1 priv h.2
  let a := random_points g1 count l.2
  let b_g1 := random_points g1 count a.2
  let b_g2 := random_points g2 count b_g1.2
  (⟨vk.1, h.1, l.1, a.1, b_g1.1, b_g2.1⟩, b_g2.2)

/-! Basic facts about the generator. -/

theorem drawMany_snd (src : Nat → α) (n st : Nat) :
    (drawMany src n st).2 = st + n := by
  induction n generalizing st with
  | zero => rfl
  | succ n ih => simp [drawMany, draw, ih]; omega

theorem drawMany_fst (src : Nat → α) (n st : Nat) :
    (drawMany src n st).1 = (List.range n).map (fun i => src (st + i)) := by
  induction n generalizing st with
  | zero => rfl
  | succ n ih =>
    have h1 : (drawMany src (n + 1) st).1 = src st :: (drawMany src n (st + 1)).1 := rfl
    have h2 : (List.range n).map (fun i => src (st + 1 + i))
        = (List.range n).map ((fun i => src (st + i)) ∘ Nat.succ) := by
      apply List.map_congr_left
      intro i _
      show src (st + 1 + i) = src (st + (i + 1))
      congr 1
      omega
    rw [h1, ih, List.range_succ_eq_map, List.map_cons, List.map_map, h2, Nat.add_zero]

theorem drawMany_fst_length (src : Nat → α) (n st : Nat) :
    (drawMany src n st).1.length = n := by
  simp [drawMany_fst]

theorem drawMany_fst_getD (src : Nat → α) (n st i : Nat) (d : α)
    (hi : i < n) : (drawMany src n st).1.getD i d = src (st + i) := by
  have hl : i < ((List.range n).map (fun j => src (st + j))).length := by
    simpa using hi
  rw [drawMany_fst, List.getD_eq_getElem _ _ hl]
  simp

theorem cycleTake_length (pool : List α) (count : Nat) (d : α) :
    (cycleTake pool count d).length = count := by
  simp [cycleTake]

theorem random_points_fst_length (src : Nat → α) (count st : Nat) :
    (random_points src count st).1.length = count := by
  simp [random_points, cycleTake_length]

theorem random_points_snd (src : Nat → α) (count st : Nat) :
    (random_points src count st).2 = st + DISTINT_POINTS := by
  simp [random_points, drawMany_snd]

theorem cycleTake_getD (pool : List α) (count i : Nat) (d : α)
    (hi : i < count) :
    (cycleTake pool count d).getD i d = pool.getD (i % pool.length) d := by
  have hl : i < ((List.range count).map
      (fun j => pool.getD (j % pool.length) d)).length := by simpa using hi
  rw [cycleTake, List.getD_eq_getElem _ _ hl]
  simp

theorem clog2_eq (n k : Nat) (h2 : 2 ^ k < n) (h3 : n ≤ 2 ^ (k + 1)) :
    Nat.clog 2 n = k + 1 :=
  le_antisymm ((Nat.le_pow_iff_clog_le (by norm_num)).mp h3)
    ((Nat.pow_lt_iff_lt_clog (by norm_num)).mp h2)

theorem dummy_vk_snd (g1 : Nat → G1) (g2 : Nat → G2) (public st : Nat) :
    (dummy_vk g1 g2 public st).2 = st + 106 := by
  simp only [dummy_vk, draw, random_points_snd, DISTINT_POINTS]

/-! Claim theorems about the generator and the synthetic parameter builder. -/

/-- C1: for every `public_count` and `private_count`, `dummy_params` gives
`h` the length `2 ^ ⌈log₂ degree_bound⌉ - 1` where
`degree_bound = (public_count + private_count) + public_count + 1`; in
particular `public = 1, private = 1` gives `hlen = 3` and
`public = 1, private = 1000000` gives `hlen = 1048575`. -/
theorem dummy_params_h_sizing :
    ∀ (g1 : Nat → G1) (g2 : Nat → G2) (public priv st : Nat),
      ((dummy_params g1 g2 public priv st).1).h.length
          = 2 ^ Nat.clog 2 ((public + priv) + public + 1) - 1
      ∧ hlen 1 1 = 3 ∧ hlen 1 1000000 = 1048575 := by
  intro g1 g2 public priv st
  refine ⟨?_, ?_, ?_⟩
  · simp [dummy_params, random_points_fst_length, hlen]
  · have h4 : Nat.clog 2 ((1 + 1) + 1 + 1) = 2 :=
      clog2_eq ((1 + 1) + 1 + 1) 1 (by norm_num) (by norm_num)
    rw [hlen, h4]
    norm_num
  · have h20 : Nat.clog 2 ((1 + 1000000) + 1 + 1) = 20 :=
      clog2_eq ((1 + 1000000) + 1 + 1) 19 (by norm_num) (by norm_num)
    rw [hlen, h20]
    norm_num

/-- C2: for every `public_count` and `private_count`, the `Parameters` value
returned by `dummy_params` has `l` of length `private_count`; `a`, `b_g1`,
`b_g2` each of length `public_count + private_count`; and its verifying
key's `ic` of length `public_count + 1`. -/
theorem dummy_params_vector_lengths :
    ∀ (g1 : Nat → G1) (g2 : Nat → G2) (public priv st : Nat),
      ((dummy_params g1 g2 public priv st).1).l.length = priv
      ∧ ((dummy_params g1 g2 public priv st).1).a.length = public + priv
      ∧ ((dummy_params g1 g2 public priv st).1).b_g1.length = public + priv
      ∧ ((dummy_params g1 g2 public priv st).1).b_g2.length = public + priv
      ∧ ((dummy_params g1 g2 public priv st).1).vk.ic.length = public + 1 := by
  intro g1 g2 public priv st
  refine ⟨?_, ?_, ?_, ?_, ?_⟩ <;>
    simp [dummy_params, dummy_vk, random_points_fst_length]

/-- C4: `random_points` returns exactly `count` affine points; the `i`-th
returned point is the pool entry at index `i mod 100` (the pool repeated
cyclically in order — for `count ≤ 100` an index `i < count` satisfies
`i mod 100 = i`, so the `i`-th point is the `i`-th pool entry); `count = 0`
yields the empty sequence. -/
theorem random_points_count_and_cycle :
    ∀ (src : Nat → α) (count st : Nat),
      ((random_points src count st).1).length = count
      ∧ (∀ i, i < count →
          ((random_points src count st).1).getD i (src st)
            = ((drawMany src DISTINT_POINTS st).1).getD (i % DISTINT_POINTS)
                (src st))
      ∧ (random_points src 0 st).1 = [] := by
  intro src count st
  refine ⟨random_points_fst_length src count st, ?_, ?_⟩
  · intro i hi
    have h := cycleTake_getD (drawMany src DISTINT_POINTS st).1 count i
      (src st) hi
    simpa [random_points, drawMany_fst_length] using h
  · simp [random_points, cycleTake]

/-- Witness for C4: at the identity source with `count = 205`, the returned
point at index 103 is the pool entry at index `103 mod 100`. -/
theorem random_points_count_and_cycle_witness :
    ((random_points (fun i => i) 205 0).1).getD 103 0
      = ((drawMany (fun i => i) DISTINT_POINTS 0).1).getD
          (103 % DISTINT_POINTS) 0 :=
  (random_points_count_and_cycle (fun i => i) 205 0).2.1 103 (by decide)

/-- C10: `random_points` performs exactly `DISTINT_POINTS = 100` draws from
the randomness source for every `count` (the pool is collected before
`cycle().take(count)` runs), so the RNG state advancement is `st + 100`
independently of `count`, and the pool always has 100 entries. -/
theorem random_points_fixed_pool_draws :
    ∀ (src : Nat → α) (count st : Nat),
      (random_points src count st).2 = st + DISTINT_POINTS
      ∧ ((drawMany src DISTINT_POINTS st).1).length = DISTINT_POINTS :=
  fun src count st =>
    ⟨random_points_snd src count st, drawMany_fst_length src _ st⟩

set_option maxRecDepth 4000 in
/-- Counterexample for C7: with a constant randomness source, the 100-entry
pool built by `random_points` (returned verbatim when `count = 100`) is not
pairwise distinct — distinctness is not guaranteed for every randomness
source. -/
theorem random_points_pool_constant_source_not_distinct :
    ((random_points (fun _ => (0 : Nat)) DISTINT_POINTS 0).1).length
        = DISTINT_POINTS
    ∧ ¬ ((random_points (fun _ => (0 : Nat)) DISTINT_POINTS 0).1).Nodup := by
  constructor
  · decide
  · decide

/-- C7 amended: the pool built by `random_points` consists of exactly 100
points drawn in order from the randomness source; the pool entries are
pairwise distinct whenever the source's next 100 draws are pairwise
distinct, but the code does not enforce distinctness for every source. -/
theorem random_points_pool_size_and_distinctness :
    ∀ (src : Nat → α) (st : Nat),
      ((drawMany src DISTINT_POINTS st).1).length = DISTINT_POINTS
      ∧ ((∀ i j, i < DISTINT_POINTS → j < DISTINT_POINTS → i ≠ j →
            src (st + i) ≠ src (st + j)) →
          ((drawMany src DISTINT_POINTS st).1).Nodup) := by
  intro src st
  refine ⟨drawMany_fst_length src _ st, ?_⟩
  intro hsrc
  rw [drawMany_fst]
  refine List.Nodup.map_on ?_ (List.nodup_range _)
  intro x hx y hy hxy
  by_contra hne
  exact hsrc x y (List.mem_range.mp hx) (List.mem_range.mp hy) hne hxy

/-- Witness for the amended C7 at the identity source: the pool is pairwise
distinct. -/
theorem random_points_pool_size_and_distinctness_witness :
    ((drawMany (fun i => i) DISTINT_POINTS 5).1).Nodup :=
  (random_points_pool_size_and_distinctness (fun i => i) 5).2
    (fun i j _ _ hne => by
      show (5 + i : Nat) ≠ 5 + j
      omega)

/-- Formalisation of claim C8's reading of `dummy_vk`: each of the six
singleton verifying-key points is also produced by one call to the bounded
generator `random_points` with count 1 (taking the single returned point),
in field order and with the appropriate group, before `ic` is filled. -/
def dummy_vk_claim (g1 : Nat → G1) (g2 : Nat → G2) (public : Nat)
    (st : Nat) : VerifyingKey G1 G2 × Nat :=
  let alpha_g1 := random_points g1 1 st
  let beta_g1 := random_points g1 1 alpha_g1.2
  let beta_g2 := random_points g2 1 beta_g1.2
  let gamma_g2 := random_points g2 1 beta_g2.2
  let delta_g1 := random_points g1 1 gamma_g2.2
  let delta_g2 := random_points g2 1 delta_g1.2
  let ic := random_points g1 (public + 1) delta_g2.2
  (⟨alpha_g1.1.getD 0 (g1 st), beta_g1.1.getD 0 (g1 st),
    beta_g2.1.getD 0 (g2 st), gamma_g2.1.getD 0 (g2 st),
    delta_g1.1.getD 0 (g1 st), delta_g2.1.getD 0 (g2 st), ic.1⟩, ic.2)

set_option maxRecDepth 8000 in
/-- Counterexample for C8: at the identity sources the verifying key built
by the code differs from the claim's formalisation (already in `beta_g1`),
because the code fills the six singleton points by direct single draws from
the source, not by calls to `random_points` (each of which would advance the
RNG by 100 draws). -/
theorem dummy_vk_differs_from_claimed_refinement :
    (dummy_vk (fun i => i) (fun i => i) 1 0).1
      ≠ (dummy_vk_claim (fun i => i) (fun i => i) 1 0).1 := by
  decide

/-- C8 amended: in `dummy_vk` / `dummy_params` each vector (`ic`, `h`, `l`,
`a`, `b_g1`, `b_g2`) is filled by one call to `random_points` with the
appropriate group and count, while the six singleton verifying-key points
are filled by direct single draws from the randomness source (in field
order), not via `random_points`. -/
theorem dummy_params_generator_calls :
    ∀ (g1 : Nat → G1) (g2 : Nat → G2) (public priv st : Nat),
      ((dummy_params g1 g2 public priv st).1).vk.alpha_g1 = g1 st
      ∧ ((dummy_params g1 g2 public priv st).1).vk.beta_g1 = g1 (st + 1)
      ∧ ((dummy_params g1 g2 public priv st).1).vk.beta_g2 = g2 (st + 2)
      ∧ ((dummy_params g1 g2 public priv st).1).vk.gamma_g2 = g2 (st + 3)
      ∧ ((dummy_params g1 g2 public priv st).1).vk.delta_g1 = g1 (st + 4)
      ∧ ((dummy_params g1 g2 public priv st).1).vk.delta_g2 = g2 (st + 5)
      ∧ ((dummy_params g1 g2 public priv st).1).vk.ic
          = (random_points g1 (public + 1) (st + 6)).1
      ∧ ((dummy_params g1 g2 public priv st).1).h
          = (random_points g1 (hlen public priv) (st + 106)).1
      ∧ ((dummy_params g1 g2 public priv st).1).l
          = (random_points g1 priv (st + 206)).1
      ∧ ((dummy_params g1 g2 public priv st).1).a
          = (random_points g1 (public + priv) (st + 306)).1
      ∧ ((dummy_params g1 g2 public priv st).1).b_g1
          = (random_points g1 (public + priv) (st + 406)).1
      ∧ ((dummy_params g1 g2 public priv st).1).b_g2
          = (random_points g2 (public + priv) (st + 506)).1 := by
  intro g1 g2 public priv st
  refine ⟨?_, ?_, ?_, ?_, ?_, ?_, ?_, ?_, ?_, ?_, ?_, ?_⟩ <;>
    simp only [dummy_params, dummy_vk, draw, random_points_snd,
      DISTINT_POINTS, Nat.add_assoc]

/-! The proof byte-blob decoder: the decoding path of `main`. -/

/-- Typed decode errors reported by the external curve/field library when a
byte region violates curve-membership, compression-flag or field-element
validity invariants. -/
inductive DecodeError
  | invalidPoint
  | invalidFieldElement
deriving DecidableEq

/-- The `Proof` shape from `crusty3_zk::groth16`: one G1 point `a`, one G2
point `b`, one G1 point `c`. -/
structure Proof (G1 G2 : Type) where
  a : G1
  b : G2
  c : G1
deriving DecidableEq

/-- Modelled from the spec: the curve library's compressed-point size
constant for G1 of BLS12-381
(`<G1Affine as CurveAffine>::Compressed::size()`, 48 bytes); the `groupy`
library itself is outside the sources in scope. -/
def g1_byteblob_size : Nat := 48

/-- Modelled from the spec: the curve library's compressed-point size
constant for G2 of BLS12-381 (96 bytes). -/
def g2_byteblob_size : Nat := 96

/-- `proof_byteblob_size = g1_byteblob_size + g2_byteblob_size +
g1_byteblob_size` as computed in `main` from the curve library's size
constants. -/
def proof_byteblob_size : Nat :=
  g1_byteblob_size + g2_byteblob_size + g1_byteblob_size

/-- `fp_byteblob_size = 48`, the fixed byte size of the trailing field
element region in `main`. -/
def fp_byteblob_size : Nat := 48

/-- External deserialisation routines for compressed G1/G2 points and field
elements, abstracting the validity-checking decoders of the curve/field
library: each either yields a value or reports a typed decode error. -/
structure ExtDecoders (G1 G2 F : Type) where
  g1 : List Nat → Except DecodeError G1
  g2 : List Nat → Except DecodeError G2
  fp : List Nat → Except DecodeError F

/-- Modelled from the spec: `groth16_proof_from_byteblob::<Bls12>` from
`crusty3_zk::groth16` (outside the sources in scope) interprets the leading
`proof_byteblob_size` bytes of its argument as
`[G1 compressed][G2 compressed][G1 compressed]`, decodes each region with
the external library, and propagates the first reported decode error as a
typed failure instead of panicking. -/
def groth16_proof_from_byteblob (d : ExtDecoders G1 G2 F)
    (blob : List Nat) : Except DecodeError (Proof G1 G2) := do
  let a ← d.g1 (blob.take g1_byteblob_size)
  let b ← d.g2 ((blob.drop g1_byteblob_size).take g2_byteblob_size)
  let c ← d.g1 ((blob.drop (g1_byteblob_size + g2_byteblob_size)).take
    g1_byteblob_size)
  pure ⟨a, b, c⟩

/-- Modelled from the spec: `fp_process::<Bls12>` from `crusty3_zk::groth16`
(outside the sources in scope) decodes a 48-byte region as one field
element with the external field deserialisation routine and its validity
check, reporting failure as a typed decode error. -/
def fp_process (d : ExtDecoders G1 G2 F) (blob : List Nat) :
    Except DecodeError F :=
  d.fp (blob.take fp_byteblob_size)

/-- Outcome of one run of the decoding path of `main`: a panic at an
out-of-range slice (`&byteblob[..n]` or `&byteblob[a..b]` on a too-short
buffer), a panic at `.unwrap()` on a reported decode error, or a completed
run with the decoded proof and field element. -/
inductive RunOutcome (G1 G2 F : Type)
  | panicSlice : RunOutcome G1 G2 F
  | panicUnwrap : DecodeError → RunOutcome G1 G2 F
  | ok : Proof G1 G2 → F → RunOutcome G1 G2 F
deriving DecidableEq

/-- The decoding path of `main` from the source: slice
`&byteblob[..proof_byteblob_size]` (panicking when the buffer is shorter),
call `groth16_proof_from_byteblob(..).unwrap()` (panicking on a reported
decode error), then slice
`byteblob[proof_byteblob_size..proof_byteblob_size + fp_byteblob_size]`
(panicking when the buffer is shorter) and call `fp_process(..).unwrap()`
likewise. -/
def mainDecode (d : ExtDecoders G1 G2 F) (byteblob : List Nat) :
    RunOutcome G1 G2 F :=
  if byteblob.length < proof_byteblob_size then .panicSlice
  else
    match groth16_proof_from_byteblob d
        (byteblob.take proof_byteblob_size) with
    | .error e => .panicUnwrap e
    | .ok de_prf =>
      if byteblob.length < proof_byteblob_size + fp_byteblob_size then
        .panicSlice
      else
        match fp_process d
            ((byteblob.drop proof_byteblob_size).take fp_byteblob_size) with
        | .error e => .panicUnwrap e
        | .ok c21 => .ok de_prf c21

/-- Concrete external decoders over byte-list-coded points, modelling
library calls that accept every region. -/
def okDecoders : ExtDecoders (List Nat) (List Nat) (List Nat) :=
  ⟨fun bs => .ok bs, fun bs => .ok bs, fun bs => .ok bs⟩

/-- Concrete external decoders whose G1 decoder rejects every byte region
(modelling a compressed-point region that fails the curve library's
validity check), while G2 and field-element decoding succeed. -/
def badG1Decoders : ExtDecoders (List Nat) (List Nat) (List Nat) :=
  ⟨fun _ => .error .invalidPoint, fun bs => .ok bs, fun bs => .ok bs⟩

/-- C6: for every buffer shorter than `proof_byteblob_size + 48` bytes the
decode operation is a fatal precondition failure — the run never reaches a
successful decode (no silent truncation, no decode from an incomplete
region) — and a buffer shorter than the proof region itself aborts at the
very first slicing step. -/
theorem mainDecode_short_buffer_fatal :
    ∀ (d : ExtDecoders G1 G2 F) (blob : List Nat),
      blob.length < proof_byteblob_size + fp_byteblob_size →
      (∀ p c, mainDecode d blob ≠ .ok p c)
      ∧ (blob.length < proof_byteblob_size →
          mainDecode d blob = .panicSlice) := by
  intro d blob hb
  constructor
  · intro p c
    unfold mainDecode
    by_cases h1 : blob.length < proof_byteblob_size
    · simp [h1]
    · cases hpf : groth16_proof_from_byteblob d
          (blob.take proof_byteblob_size) with
      | error e => simp [h1, hpf]
      | ok prf => simp [h1, hpf, hb]
  · intro h1
    unfold mainDecode
    simp [h1]

/-- Witness for C6: the empty buffer is short, aborts at the first slicing
step, and is never decoded successfully. -/
theorem mainDecode_short_buffer_fatal_witness :
    ([] : List Nat).length < proof_byteblob_size + fp_byteblob_size
    ∧ mainDecode okDecoders ([] : List Nat) = .panicSlice :=
  ⟨by decide,
    (mainDecode_short_buffer_fatal okDecoders [] (by decide)).2 (by decide)⟩

/-- Counterexample for C3: on a 240-byte buffer whose leading `g1_size`
bytes fail the external validity check, the whole run ends in a panic (at
the `.unwrap()` on the decode result), so the reported decode error does
crash the run, contrary to the claim. -/
theorem mainDecode_g1_error (d : ExtDecoders G1 G2 F) (blob : List Nat)
    (e : DecodeError) (hb : proof_byteblob_size ≤ blob.length)
    (hg1 : d.g1 (blob.take g1_byteblob_size) = .error e) :
    groth16_proof_from_byteblob d (blob.take proof_byteblob_size)
        = .error e
    ∧ mainDecode d blob = .panicUnwrap e := by
  have e1 : (blob.take proof_byteblob_size).take g1_byteblob_size
      = blob.take g1_byteblob_size := by
    rw [List.take_take]
    norm_num [g1_byteblob_size, g2_byteblob_size, proof_byteblob_size]
  have hpf : groth16_proof_from_byteblob d (blob.take proof_byteblob_size)
      = .error e := by
    simp only [groth16_proof_from_byteblob, e1, hg1]
    rfl
  have h1 : ¬ blob.length < proof_byteblob_size := by omega
  refine ⟨hpf, ?_⟩
  unfold mainDecode
  simp [h1, hpf]

/-- Counterexample for C3: on a 240-byte buffer whose leading `g1_size`
bytes fail the external validity check, the whole run ends in a panic (at
the `.unwrap()` on the decode result), so the reported decode error does
crash the run, contrary to the claim. -/
theorem mainDecode_invalid_point_run_panics :
    mainDecode badG1Decoders (List.replicate 240 0)
        = .panicUnwrap .invalidPoint
    ∧ ∀ p c, mainDecode badG1Decoders (List.replicate 240 0) ≠ .ok p c := by
  have h := mainDecode_g1_error badG1Decoders (List.replicate 240 0)
    .invalidPoint (by rw [List.length_replicate]; decide) rfl
  refine ⟨h.2, ?_⟩
  intro p c
  rw [h.2]
  simp

/-- C3 amended: when the leading `g1_size` bytes of the buffer are rejected
by the external curve library, the decode call
(`groth16_proof_from_byteblob`) itself reports a typed decode error rather
than panicking; `main`, however, unwraps that result, so the run terminates
with a panic carrying exactly the reported error (the failure is surfaced
as the typed error, but the run does crash). -/
theorem mainDecode_invalid_point_typed_error :
    ∀ (d : ExtDecoders G1 G2 F) (blob : List Nat) (e : DecodeError),
      proof_byteblob_size ≤ blob.length →
      d.g1 (blob.take g1_byteblob_size) = .error e →
      groth16_proof_from_byteblob d (blob.take proof_byteblob_size)
          = .error e
      ∧ mainDecode d blob = .panicUnwrap e :=
  fun d blob e hb hg1 => mainDecode_g1_error d blob e hb hg1

/-- Witness for the amended C3: the rejecting G1 decoder on a 240-byte
buffer yields the typed error from the decode call and an unwrap panic from
the run. -/
theorem mainDecode_invalid_point_typed_error_witness :
    groth16_proof_from_byteblob badG1Decoders
        ((List.replicate 240 0).take proof_byteblob_size)
          = .error .invalidPoint
    ∧ mainDecode badG1Decoders (List.replicate 240 0)
        = .panicUnwrap .invalidPoint :=
  mainDecode_invalid_point_typed_error badG1Decoders (List.replicate 240 0)
    .invalidPoint (by rw [List.length_replicate]; decide) rfl

/-- C5: `main` interprets the leading
`proof_byteblob_size = g1_byteblob_size + g2_byteblob_size +
g1_byteblob_size` bytes of the buffer as a proof laid out
`[G1 compressed][G2 compressed][G1 compressed]` — `a` from bytes `[0, 48)`,
`b` from bytes `[48, 144)`, `c` from bytes `[144, 192)` — and then decodes
exactly the next 48 bytes `[192, 240)` as one field element. -/
theorem mainDecode_layout :
    ∀ (d : ExtDecoders G1 G2 F) (blob : List Nat) (a c : G1) (b : G2)
      (f : F),
      proof_byteblob_size + fp_byteblob_size ≤ blob.length →
      d.g1 (blob.take 48) = .ok a →
      d.g2 ((blob.drop 48).take 96) = .ok b →
      d.g1 ((blob.drop 144).take 48) = .ok c →
      d.fp ((blob.drop 192).take 48) = .ok f →
      proof_byteblob_size
          = g1_byteblob_size + g2_byteblob_size + g1_byteblob_size
      ∧ mainDecode d blob = .ok ⟨a, b, c⟩ f := by
  intro d blob a c b f hb hg1 hg2 hg1c hfp
  have e1 : (blob.take proof_byteblob_size).take g1_byteblob_size
      = blob.take 48 := by
    rw [List.take_take]
    norm_num [g1_byteblob_size, g2_byteblob_size, proof_byteblob_size]
  have e2 : ((blob.take proof_byteblob_size).drop g1_byteblob_size).take
      g2_byteblob_size = (blob.drop 48).take 96 := by
    rw [List.drop_take, List.take_take]
    norm_num [g1_byteblob_size, g2_byteblob_size, proof_byteblob_size]
  have e3 : ((blob.take proof_byteblob_size).drop
      (g1_byteblob_size + g2_byteblob_size)).take g1_byteblob_size
      = (blob.drop 144).take 48 := by
    rw [List.drop_take, List.take_take]
    norm_num [g1_byteblob_size, g2_byteblob_size, proof_byteblob_size]
  have e4 : ((blob.drop proof_byteblob_size).take fp_byteblob_size).take
      fp_byteblob_size = (blob.drop 192).take 48 := by
    rw [List.take_take]
    norm_num [g1_byteblob_size, g2_byteblob_size, proof_byteblob_size,
      fp_byteblob_size]
  have hpf : groth16_proof_from_byteblob d (blob.take proof_byteblob_size)
      = .ok ⟨a, b, c⟩ := by
    simp only [groth16_proof_from_byteblob, e1, e2, e3, hg1, hg2, hg1c]
    rfl
  have hfp2 : fp_process d
      ((blob.drop proof_byteblob_size).take fp_byteblob_size) = .ok f := by
    simp only [fp_process, e4, hfp]
  have h1 : ¬ blob.length < proof_byteblob_size := by
    have : proof_byteblob_size ≤ proof_byteblob_size + fp_byteblob_size :=
      Nat.le_add_right _ _
    omega
  have h2 : ¬ blob.length < proof_byteblob_size + fp_byteblob_size := by
    omega
  refine ⟨rfl, ?_⟩
  unfold mainDecode
  simp [h1, h2, hpf, hfp2]

/-- Witness for C5: on the buffer `0, 1, …, 239` with the accepting
decoders, the run decodes the three point regions and the following
48-byte field-element region. -/
theorem mainDecode_layout_witness :
    mainDecode okDecoders (List.range 240)
      = .ok ⟨(List.range 240).take 48, ((List.range 240).drop 48).take 96,
          ((List.range 240).drop 144).take 48⟩
          (((List.range 240).drop 192).take 48) :=
  (mainDecode_layout okDecoders (List.range 240) _ _ _ _
    (by rw [List.length_range]; decide) rfl rfl rfl rfl).2

/-! The demonstration circuit `DummyDemo`. -/

/-- The modulus of the BLS12-381 scalar field (the order of `E::Fr`). -/
def frModulus : Nat :=
  52435875175126190479447740508185965837690552500527637822603658699938581184513

/-- The scalar field `E::Fr` of BLS12-381. -/
abbrev Fr := ZMod frModulus

/-- `SynthesisError` from the SNARK engine, restricted to the variant the
circuit itself can produce via `ok_or`. -/
inductive SynthesisError
  | assignmentMissing
deriving DecidableEq

/-- A constraint-system variable: a public input or an auxiliary (private)
variable, each with its allocation index. -/
inductive Var
  | input : Nat → Var
  | aux : Nat → Var
deriving DecidableEq

/-- A linear combination, as built by `|lc| lc + ...`: a list of
(coefficient, variable) terms. -/
abbrev LC := List (Fr × Var)

/-- The constraint system driven by `synthesize`, modelled like bellman's
assemblies: it counts allocations, records the enforced constraints, and
evaluates the value closures passed to `alloc`/`alloc_input`, propagating
their errors.  Input 0 is the implicit constant-one variable `CS::one`. -/
structure CSState where
  num_inputs : Nat
  num_aux : Nat
  constraints : List (LC × LC × LC)
deriving DecidableEq

/-- The empty constraint system: one input (the constant one), no auxiliary
variables, no constraints. -/
def initialCS : CSState := ⟨1, 0, []⟩

/-- `CS::one`, the constant-one input variable. -/
def csOne : Var := Var.input 0

/-- `cs.alloc(annotation, value)`: evaluate the value closure (its error is
propagated by the `?` at the call site) and allocate a fresh auxiliary
variable. -/
def allocCS (value : Except SynthesisError Fr) (s : CSState) :
    Except SynthesisError (Var × CSState) :=
  match value with
  | .error e => .error e
  | .ok _ => .ok (Var.aux s.num_aux, { s with num_aux := s.num_aux + 1 })

/-- `cs.alloc_input(annotation, value)`: evaluate the value closure and
allocate a fresh input variable. -/
def allocInputCS (value : Except SynthesisError Fr) (s : CSState) :
    Except SynthesisError (Var × CSState) :=
  match value with
  | .error e => .error e
  | .ok _ =>
    .ok (Var.input s.num_inputs, { s with num_inputs := s.num_inputs + 1 })

/-- `cs.enforce(annotation, a, b, c)`: record the bilinear constraint
`a * b = c`. -/
def enforceCS (a b c : LC) (s : CSState) : CSState :=
  { s with constraints := s.constraints ++ [(a, b, c)] }

/-- `x_val.ok_or(SynthesisError::AssignmentMissing)` as used in the value
closures of `synthesize`. -/
def ok_or (v : Option Fr) : Except SynthesisError Fr :=
  match v with
  | none => .error .assignmentMissing
  | some x => .ok x

/-- The `for _ in 0..self.private + self.public - 1` loop of
`DummyDemo::synthesize`: square the tracked value, allocate the square as
an input while `pubs < self.public` (incrementing `pubs`) and as an
auxiliary variable otherwise, enforce `x * x = x2`, and continue with the
square.  Returns the final tracked value, variable, `pubs` counter and
constraint system, or the first propagated error. -/
def synthLoop (public : Nat) :
    Nat → Option Fr → Var → Nat → CSState →
      Except SynthesisError (Option Fr × Var × Nat × CSState)
  | 0, x_val, x, pubs, s => .ok (x_val, x, pubs, s)
  | n + 1, x_val, x, pubs, s =>
    let x2_val := x_val.map (fun e => e * e)
    if pubs < public then
      match allocInputCS (ok_or x2_val) s with
      | .error e => .error e
      | .ok (x2, s1) =>
        synthLoop public n x2_val x2 (pubs + 1)
          (enforceCS [((1 : Fr), x)] [((1 : Fr), x)] [((1 : Fr), x2)] s1)
    else
      match allocCS (ok_or x2_val) s with
      | .error e => .error e
      | .ok (x2, s1) =>
        synthLoop public n x2_val x2 pubs
          (enforceCS [((1 : Fr), x)] [((1 : Fr), x)] [((1 : Fr), x2)] s1)

/-- `DummyDemo::synthesize` from the source, driving the modelled
constraint system.  The failing `assert!(self.public >= 1)` is a panic
(modelled `none`), as would be the final `x_val.unwrap()` on a missing
value; recoverable synthesis errors are `some (.error e)`.
`E::Fr::from_str("2")` parses to `Some 2` in the scalar field.  After the
loop, the final constraint `(x_val.unwrap()) * one = x` is enforced and
synthesis returns `Ok(())` with the built system. -/
def synthesize (public priv : Nat) :
    Option (Except SynthesisError CSState) :=
  if 1 ≤ public then
    let x_val : Option Fr := some 2
    match allocInputCS (ok_or x_val) initialCS with
    | .error e => some (.error e)
    | .ok (x0, s1) =>
      match synthLoop public (priv + public - 1) x_val x0 1 s1 with
      | .error e => some (.error e)
      | .ok (x_val2, x, _, s2) =>
        match x_val2 with
        | none => none
        | some v =>
          some (.ok (enforceCS [(v, csOne)] [((1 : Fr), csOne)]
            [((1 : Fr), x)] s2))
  else none

theorem synthLoop_ok (public : Nat) :
    ∀ (n : Nat) (v : Fr) (x : Var) (pubs : Nat) (s : CSState),
      ∃ v' x' pubs' s',
        synthLoop public n (some v) x pubs s
          = .ok (some v', x', pubs', s') := by
  intro n
  induction n with
  | zero => exact fun v x pubs s => ⟨v, x, pubs, s, rfl⟩
  | succ n ih =>
    intro v x pubs s
    by_cases h : pubs < public
    · simp only [synthLoop, Option.map_some', allocInputCS, ok_or, if_pos h]
      exact ih (v * v) _ _ _
    · simp only [synthLoop, Option.map_some', allocCS, ok_or, if_neg h]
      exact ih (v * v) _ _ _

/-- C9: synthesizing `DummyDemo` with `public == 0` fails fatally at
`assert!(self.public >= 1)` (an assertion-style panic, not a recoverable
error value), and for every `public ≥ 1` the assertion passes and synthesis
runs to completion, returning `Ok` with the built constraint system. -/
theorem synthesize_public_assertion :
    ∀ (public priv : Nat),
      synthesize 0 priv = none
      ∧ ∃ s, synthesize (public + 1) priv = some (.ok s) := by
  intro public priv
  constructor
  · rfl
  · obtain ⟨v', x', pubs', s', hloop⟩ := synthLoop_ok (public + 1)
      (priv + (public + 1) - 1) 2 (Var.input 1) 1 ⟨2, 0, []⟩
    have ha : allocInputCS (ok_or (some 2)) initialCS
        = .ok (Var.input 1, ⟨2, 0, []⟩) := rfl
    refine ⟨enforceCS [(v', csOne)] [((1 : Fr), csOne)] [((1 : Fr), x')] s',
      ?_⟩
    simp only [synthesize, if_pos (Nat.le_add_left 1 public), ha, hloop]

end VerifierBench
